import Mathlib

/-!
Verification of the filter-and-aggregate pipeline of `Dashboard.py`.

The embedding below follows the source closely:
  * `Row` is one record of the DataFrame built by `load_and_clean_data`
    (columns `Jenis Kelamin`, `Tingkat Pendidikan`, `Durasi_Penggunaan_Harian`,
    `Platform_Terbanyak_Digunakan`, `Durasi_Tidur`, `Skor_Kesehatan_Mental`);
    a table is a `List Row`.
  * Numeric columns are modelled over `ℚ` (exact rationals); numpy/pandas
    `round` is half-to-even rounding (`roundHalfEven`), `clip(lo, hi)` is
    `clip`, and `astype(int)` is truncation toward zero (`astypeInt`).
  * The sidebar filter of `main` (lines 262-267) is `applyFilter`; the
    sentinel string "Semua" means "no constraint".
  * Pandas `mean()` of an empty selection yields NaN; NaN (the no-data value)
    is modelled as `none` throughout (`meanOpt`, `corrEntry`).
  * `groupby` with the default `sort=True` is modelled as mapping over the
    deduplicated, ascending-sorted list of keys present in the table.
  * Pearson correlation needs a real square root, so correlation entries live
    in `Option ℝ`; the NaN condition (zero variance, hence 0/0) is `none`.
-/

namespace Dashboard

/-- One record of the DataFrame created by `load_and_clean_data`. -/
structure Row where
  jenis_Kelamin : String
  tingkat_Pendidikan : String
  durasi_Penggunaan_Harian : ℚ
  platform_Terbanyak_Digunakan : String
  durasi_Tidur : ℚ
  skor_Kesehatan_Mental : ℤ
deriving DecidableEq, Repr

/-- numpy/pandas `round` to an integer: round half to even. -/
def roundHalfEven (x : ℚ) : ℤ :=
  if x - ⌊x⌋ < 1/2 then ⌊x⌋
  else if 1/2 < x - ⌊x⌋ then ⌊x⌋ + 1
  else if 2 ∣ ⌊x⌋ then ⌊x⌋ else ⌊x⌋ + 1

/-- pandas `Series.round(d)`: round half to even at `d` decimal places. -/
def roundTo (d : ℕ) (x : ℚ) : ℚ := (roundHalfEven (x * 10 ^ d) : ℚ) / 10 ^ d

/-- pandas `Series.clip(lo, hi)`. -/
def clip (lo hi x : ℚ) : ℚ := min hi (max lo x)

/-- numpy `astype(int)`: conversion truncates the fractional part (toward zero). -/
def astypeInt (x : ℚ) : ℤ := if 0 ≤ x then ⌊x⌋ else ⌈x⌉

/-- Line 78: `(base_sleep - usage * 0.2).clip(3, 10).round(1)`. -/
def durasiTidur (base_sleep usage : ℚ) : ℚ :=
  roundTo 1 (clip 3 10 (base_sleep - usage * 0.2))

/-- Line 81: `(base_mental_health - usage * 2.5).clip(10, 100).astype(int)`. -/
def skorKesehatanMental (base_mental_health usage : ℚ) : ℤ :=
  astypeInt (clip 10 100 (base_mental_health - usage * 2.5))

/-- The sidebar filter of `main` (lines 262-267): start from a copy of the
table, then keep the rows equal to each selector that is not "Semua". -/
def applyFilter (df : List Row) (selected_pendidikan selected_gender : String) :
    List Row :=
  let f1 := if selected_pendidikan ≠ "Semua"
    then df.filter (fun r => decide (r.tingkat_Pendidikan = selected_pendidikan))
    else df
  if selected_gender ≠ "Semua"
    then f1.filter (fun r => decide (r.jenis_Kelamin = selected_gender))
    else f1

/-- pandas `Series.mean()` of a nonempty column: sum divided by count. -/
def listMean (l : List ℚ) : ℚ := l.sum / l.length

/-- pandas `Series.mean()` including the empty case, where it yields NaN
(modelled as `none`). -/
def meanOpt (l : List ℚ) : Option ℚ :=
  if l.isEmpty then none else some (listMean l)

/-- The four scalar metrics of `main` (lines 277-286). -/
structure Metrics where
  total_responden : ℕ
  avg_usage : Option ℚ
  avg_sleep : Option ℚ
  avg_health : Option ℚ
deriving DecidableEq, Repr

/-- Lines 277-286 of `main`: the row count and the three column means. -/
def summaryMetrics (df : List Row) : Metrics where
  total_responden := df.length
  avg_usage := meanOpt (df.map (·.durasi_Penggunaan_Harian))
  avg_sleep := meanOpt (df.map (·.durasi_Tidur))
  avg_health := meanOpt (df.map (fun r => (r.skor_Kesehatan_Mental : ℚ)))

/-- Lexicographic order on the (Tingkat Pendidikan, Jenis Kelamin) group
keys; pandas `groupby` with its default `sort=True` emits the key
combinations in this ascending order. -/
def keyLe (a b : String × String) : Prop :=
  a.1 < b.1 ∨ (a.1 = b.1 ∧ a.2 ≤ b.2)

instance : DecidableRel keyLe := fun a b => by
  unfold keyLe
  infer_instance

instance : IsTotal (String × String) keyLe := by
  constructor
  intro a b
  rcases lt_trichotomy a.1 b.1 with h | h | h
  · exact Or.inl (Or.inl h)
  · rcases le_total a.2 b.2 with h2 | h2
    · exact Or.inl (Or.inr ⟨h, h2⟩)
    · exact Or.inr (Or.inr ⟨h.symm, h2⟩)
  · exact Or.inr (Or.inl h)

instance : IsTrans (String × String) keyLe := by
  constructor
  intro a b c hab hbc
  rcases hab with h1 | ⟨e1, l1⟩ <;> rcases hbc with h2 | ⟨e2, l2⟩
  · exact Or.inl (lt_trans h1 h2)
  · exact Or.inl (lt_of_lt_of_le h1 (le_of_eq e2))
  · exact Or.inl (lt_of_le_of_lt (le_of_eq e1) h2)
  · exact Or.inr ⟨e1.trans e2, le_trans l1 l2⟩

/-- The grouping key of line 98: Tingkat Pendidikan paired with Jenis
Kelamin. -/
def demografiKey (r : Row) : String × String :=
  (r.tingkat_Pendidikan, r.jenis_Kelamin)

/-- The rows of the table falling in one `groupby` group. -/
def groupRows (df : List Row) (k : String × String) : List Row :=
  df.filter (fun r => decide (demografiKey r = k))

/-- Line 98 of `visualisasi_demografi`: group by (Tingkat Pendidikan, Jenis
Kelamin), take the mean of `Durasi_Penggunaan_Harian` per group, round to 2
decimals; `groupby` emits one output row per key present, keys sorted
ascending. -/
def demografiAgg (df : List Row) : List ((String × String) × ℚ) :=
  (((df.map demografiKey).dedup).insertionSort keyLe).map
    (fun k =>
      (k, roundTo 2 (listMean ((groupRows df k).map (·.durasi_Penggunaan_Harian)))))

end Dashboard

namespace Dashboard

/-- A sample record used to instantiate universally quantified theorems. -/
def sampleRow : Row :=
  { jenis_Kelamin := "Laki-laki"
    tingkat_Pendidikan := "Pelajar SMA"
    durasi_Penggunaan_Harian := 5
    platform_Terbanyak_Digunakan := "Instagram"
    durasi_Tidur := 7
    skor_Kesehatan_Mental := 70 }

/-- C1: on an empty filtered table, `summary_metrics` returns count 0 and the
no-data marker (NaN, modelled `none`) for all three means — never zero and
never a crash. -/
theorem claim_C1 (df : List Row) (p g : String)
    (h : applyFilter df p g = []) :
    summaryMetrics (applyFilter df p g) =
      { total_responden := 0, avg_usage := none, avg_sleep := none,
        avg_health := none } := by
  rw [h]; rfl

theorem claim_C1_witness :
    applyFilter [sampleRow] "Mahasiswa S1" "Semua" = [] ∧
    summaryMetrics (applyFilter [sampleRow] "Mahasiswa S1" "Semua") =
      { total_responden := 0, avg_usage := none, avg_sleep := none,
        avg_health := none } := by
  have h : applyFilter [sampleRow] "Mahasiswa S1" "Semua" = [] := by decide
  exact ⟨h, claim_C1 [sampleRow] "Mahasiswa S1" "Semua" h⟩

/-- C8: filtering with both selectors at "Semua" (the empty predicate mapping)
returns a table equal to the input. -/
theorem claim_C8 (df : List Row) : applyFilter df "Semua" "Semua" = df := by
  simp [applyFilter]

theorem mem_applyFilter (df : List Row) (p g : String) (r : Row) :
    r ∈ applyFilter df p g ↔
      r ∈ df ∧ (p = "Semua" ∨ r.tingkat_Pendidikan = p) ∧
        (g = "Semua" ∨ r.jenis_Kelamin = g) := by
  by_cases hp : p = "Semua" <;> by_cases hg : g = "Semua" <;>
    simp [applyFilter, hp, hg, List.mem_filter] <;> tauto

/-- C2: `applyFilter` keeps exactly the rows satisfying every active predicate
(logical AND); a literal absent from the column (in particular one outside
the domain of the field) yields the empty table rather than an error. -/
theorem claim_C2 (df : List Row) (p g : String) :
    (∀ r : Row, r ∈ applyFilter df p g ↔
        r ∈ df ∧ (p = "Semua" ∨ r.tingkat_Pendidikan = p) ∧
          (g = "Semua" ∨ r.jenis_Kelamin = g)) ∧
    ((∀ r ∈ df, r.tingkat_Pendidikan ≠ p) → p ≠ "Semua" →
        applyFilter df p g = []) := by
  refine ⟨mem_applyFilter df p g, ?_⟩
  intro habs hp
  rw [List.eq_nil_iff_forall_not_mem]
  intro r hr
  rcases (mem_applyFilter df p g r).mp hr with ⟨hin, hor, -⟩
  rcases hor with h1 | h2
  · exact hp h1
  · exact habs r hin h2

theorem roundHalfEven_ge_floor (x : ℚ) : ⌊x⌋ ≤ roundHalfEven x := by
  unfold roundHalfEven
  split_ifs <;> omega

theorem roundHalfEven_le_ceil (x : ℚ) : roundHalfEven x ≤ ⌈x⌉ := by
  have hfc : ⌊x⌋ ≤ ⌈x⌉ := Int.floor_le_ceil x
  have hsucc : 0 < x - ⌊x⌋ → ⌊x⌋ + 1 ≤ ⌈x⌉ := by
    intro hpos
    have : (⌊x⌋ : ℚ) < x := by linarith
    exact Int.lt_ceil.mpr this
  unfold roundHalfEven
  split_ifs with h1 h2 h3
  · exact hfc
  · exact hsucc (by linarith)
  · exact hfc
  · exact hsucc (by linarith)

theorem roundHalfEven_between (a b : ℤ) (x : ℚ) (ha : (a : ℚ) ≤ x)
    (hb : x ≤ (b : ℚ)) : a ≤ roundHalfEven x ∧ roundHalfEven x ≤ b :=
  ⟨le_trans (Int.le_floor.mpr ha) (roundHalfEven_ge_floor x),
   le_trans (roundHalfEven_le_ceil x) (Int.ceil_le.mpr hb)⟩

theorem roundTo_between (d : ℕ) (a b : ℤ) (x : ℚ) (ha : (a : ℚ) ≤ x)
    (hb : x ≤ (b : ℚ)) : (a : ℚ) ≤ roundTo d x ∧ roundTo d x ≤ (b : ℚ) := by
  have hp : (0 : ℚ) < 10 ^ d := by positivity
  obtain ⟨hl, hr⟩ := roundHalfEven_between (a * 10 ^ d) (b * 10 ^ d) (x * 10 ^ d)
    (by push_cast; exact mul_le_mul_of_nonneg_right ha hp.le)
    (by push_cast; exact mul_le_mul_of_nonneg_right hb hp.le)
  have hlq : (a : ℚ) * 10 ^ d ≤ (roundHalfEven (x * 10 ^ d) : ℚ) := by
    exact_mod_cast hl
  have hrq : (roundHalfEven (x * 10 ^ d) : ℚ) ≤ (b : ℚ) * 10 ^ d := by
    exact_mod_cast hr
  constructor
  · rw [roundTo, le_div_iff hp]; exact hlq
  · rw [roundTo, div_le_iff hp]; exact hrq

theorem clip_between (lo hi x : ℚ) (h : lo ≤ hi) :
    lo ≤ clip lo hi x ∧ clip lo hi x ≤ hi :=
  ⟨le_min h (le_max_left lo x), min_le_left hi _⟩

theorem durasiTidur_between (base_sleep usage : ℚ) :
    3 ≤ durasiTidur base_sleep usage ∧ durasiTidur base_sleep usage ≤ 10 := by
  obtain ⟨h1, h2⟩ := clip_between 3 10 (base_sleep - usage * 0.2) (by norm_num)
  have := roundTo_between 1 3 10 (clip 3 10 (base_sleep - usage * 0.2))
    (by exact_mod_cast h1) (by exact_mod_cast h2)
  unfold durasiTidur
  exact_mod_cast this

theorem skorKesehatanMental_eq_floor (base_mental_health usage : ℚ) :
    skorKesehatanMental base_mental_health usage =
      ⌊clip 10 100 (base_mental_health - usage * 2.5)⌋ ∧
    10 ≤ skorKesehatanMental base_mental_health usage ∧
    skorKesehatanMental base_mental_health usage ≤ 100 := by
  obtain ⟨h1, h2⟩ :=
    clip_between 10 100 (base_mental_health - usage * 2.5) (by norm_num)
  have hnn : 0 ≤ clip 10 100 (base_mental_health - usage * 2.5) := by linarith
  have heq : skorKesehatanMental base_mental_health usage =
      ⌊clip 10 100 (base_mental_health - usage * 2.5)⌋ := by
    unfold skorKesehatanMental astypeInt
    rw [if_pos hnn]
  refine ⟨heq, ?_, ?_⟩
  · rw [heq]
    exact Int.le_floor.mpr (by exact_mod_cast h1)
  · rw [heq]
    have : (⌊clip 10 100 (base_mental_health - usage * 2.5)⌋ : ℚ) ≤ 100 :=
      le_trans (Int.floor_le _) h2
    exact_mod_cast this

/-- C3: for every noise draw and every valid usage value, the generated
`Durasi_Tidur` lies in [3,10] and the generated `Skor_Kesehatan_Mental` lies
in [10,100] (the clamp invariant). -/
theorem claim_C3 (base_sleep base_mental_health usage : ℚ)
    (h1 : 1 ≤ usage) (h2 : usage ≤ 12) :
    (3 ≤ durasiTidur base_sleep usage ∧ durasiTidur base_sleep usage ≤ 10) ∧
    (10 ≤ skorKesehatanMental base_mental_health usage ∧
      skorKesehatanMental base_mental_health usage ≤ 100) :=
  ⟨durasiTidur_between base_sleep usage,
   (skorKesehatanMental_eq_floor base_mental_health usage).2⟩

theorem claim_C3_witness :
    ((1 : ℚ) ≤ 6 ∧ (6 : ℚ) ≤ 12) ∧
    ((3 ≤ durasiTidur 8 6 ∧ durasiTidur 8 6 ≤ 10) ∧
     (10 ≤ skorKesehatanMental 80 6 ∧ skorKesehatanMental 80 6 ≤ 100)) :=
  ⟨⟨by norm_num, by norm_num⟩, claim_C3 8 80 6 (by norm_num) (by norm_num)⟩

/-- C10: the mental-health score is the clipped value truncated (not rounded)
to an integer, and the truncated result still lies in [10,100]; at the
concrete input `base = 80, usage = 1` the clipped value is 77.5, truncation
gives 77 while round-half-even would give 78. -/
theorem claim_C10 :
    (∀ base_mental_health usage : ℚ,
        skorKesehatanMental base_mental_health usage =
          ⌊clip 10 100 (base_mental_health - usage * 2.5)⌋ ∧
        10 ≤ skorKesehatanMental base_mental_health usage ∧
        skorKesehatanMental base_mental_health usage ≤ 100) ∧
    skorKesehatanMental 80 1 = 77 ∧
    roundHalfEven (clip 10 100 (80 - 1 * 2.5)) = 78 :=
  ⟨skorKesehatanMental_eq_floor,
   by norm_num [skorKesehatanMental, astypeInt, clip],
   by norm_num [roundHalfEven, clip]⟩

theorem claim_C2_witness :
    sampleRow ∈ applyFilter [sampleRow] "Pelajar SMA" "Semua" ∧
    applyFilter [sampleRow] "Mahasiswa S1" "Semua" = [] := by
  constructor
  · exact ((claim_C2 [sampleRow] "Pelajar SMA" "Semua").1 sampleRow).mpr
      (by decide)
  · exact (claim_C2 [sampleRow] "Mahasiswa S1" "Semua").2 (by decide) (by decide)

theorem demografiAgg_map_fst (df : List Row) :
    (demografiAgg df).map Prod.fst =
      ((df.map demografiKey).dedup).insertionSort keyLe := by
  rw [demografiAgg, List.map_map]
  exact List.map_id _

/-- C4: the grouped mean groups the filtered table by (education, gender) and
emits one output row per key present, keys in sorted deterministic order
without duplicates; after filtering to education "Mahasiswa S1" every emitted
key carries that education level and its value is exactly the 2-decimal
rounding of the mean of `Durasi_Penggunaan_Harian` recomputed from the raw
rows of that group. -/
theorem claim_C4 (df : List Row) :
    List.Sorted keyLe
      ((demografiAgg (applyFilter df "Mahasiswa S1" "Semua")).map Prod.fst) ∧
    ((demografiAgg (applyFilter df "Mahasiswa S1" "Semua")).map Prod.fst).Nodup ∧
    (∀ k, k ∈ (demografiAgg (applyFilter df "Mahasiswa S1" "Semua")).map Prod.fst ↔
        k ∈ (applyFilter df "Mahasiswa S1" "Semua").map demografiKey) ∧
    (∀ e ∈ demografiAgg (applyFilter df "Mahasiswa S1" "Semua"),
        e.1.1 = "Mahasiswa S1" ∧
        e.2 = roundTo 2 (listMean
          ((groupRows (applyFilter df "Mahasiswa S1" "Semua") e.1).map
            (·.durasi_Penggunaan_Harian)))) := by
  refine ⟨?_, ?_, ?_, ?_⟩
  · rw [demografiAgg_map_fst]
    exact List.sorted_insertionSort keyLe _
  · rw [demografiAgg_map_fst]
    exact ((List.perm_insertionSort keyLe _).nodup_iff).mpr (List.nodup_dedup _)
  · intro k
    rw [demografiAgg_map_fst, List.mem_insertionSort, List.mem_dedup]
  · intro e he
    rcases List.mem_map.mp he with ⟨k, hk, rfl⟩
    rw [List.mem_insertionSort, List.mem_dedup] at hk
    rcases List.mem_map.mp hk with ⟨r, hr, rfl⟩
    have htp : r.tingkat_Pendidikan = "Mahasiswa S1" := by
      rcases (mem_applyFilter df "Mahasiswa S1" "Semua" r).mp hr with ⟨-, h2, -⟩
      rcases h2 with habs | hgood
      · exact absurd habs (by decide)
      · exact hgood
    exact ⟨htp, rfl⟩

end Dashboard

namespace Dashboard

/-- One output row of `visualisasi_platform` (lines 203-205) after the
`rename`: the platform, the group mean of usage rounded to 1 decimal, and
the group size. -/
structure PlatformRow where
  platform_Terbanyak_Digunakan : String
  rata_Rata_Durasi : ℚ
  jumlah_Pengguna : ℕ
deriving DecidableEq, Repr

/-- The usage column of the rows of one platform group. -/
def platformGroup (df : List Row) (p : String) : List ℚ :=
  (df.filter (fun r => decide (r.platform_Terbanyak_Digunakan = p))).map
    (·.durasi_Penggunaan_Harian)

/-- Descending order on the rounded group mean: the sort key of line 205,
`sort_values` on `Rata_Rata_Durasi` with ascending False. -/
def rankGe (a b : PlatformRow) : Prop :=
  b.rata_Rata_Durasi ≤ a.rata_Rata_Durasi

instance : DecidableRel rankGe := fun a b => by
  unfold rankGe
  infer_instance

instance : IsTotal PlatformRow rankGe :=
  ⟨fun a b => le_total b.rata_Rata_Durasi a.rata_Rata_Durasi⟩

instance : IsTrans PlatformRow rankGe :=
  ⟨fun _ _ _ h1 h2 => le_trans h2 h1⟩

/-- Lines 203-205 of `visualisasi_platform`: group by
`Platform_Terbanyak_Digunakan` (keys sorted ascending by `groupby`),
aggregate mean and count of `Durasi_Penggunaan_Harian`, round to 1 decimal,
then sort the rows descending by `Rata_Rata_Durasi`. -/
def platformAgg (df : List Row) : List PlatformRow :=
  ((((df.map (·.platform_Terbanyak_Digunakan)).dedup).insertionSort (· ≤ ·)).map
    (fun p => PlatformRow.mk p (roundTo 1 (listMean (platformGroup df p)))
      (platformGroup df p).length)).insertionSort rankGe

/-- The five platform values drawn by `load_and_clean_data` (line 69). -/
def fivePlatforms : List String :=
  ["Instagram", "TikTok", "X (Twitter)", "YouTube", "Facebook"]

theorem platformAgg_map_platform (df : List Row) :
    ((platformAgg df).map PlatformRow.platform_Terbanyak_Digunakan).Perm
      ((df.map (·.platform_Terbanyak_Digunakan)).dedup) := by
  have h1 := (List.perm_insertionSort rankGe
    ((((df.map (·.platform_Terbanyak_Digunakan)).dedup).insertionSort (· ≤ ·)).map
      (fun p => PlatformRow.mk p (roundTo 1 (listMean (platformGroup df p)))
        (platformGroup df p).length))).map PlatformRow.platform_Terbanyak_Digunakan
  rw [platformAgg]
  refine h1.trans ?_
  rw [List.map_map]
  have h2 : (List.map
      (PlatformRow.platform_Terbanyak_Digunakan ∘ fun p =>
        PlatformRow.mk p (roundTo 1 (listMean (platformGroup df p)))
          (platformGroup df p).length)
      (((df.map (·.platform_Terbanyak_Digunakan)).dedup).insertionSort (· ≤ ·))) =
      ((df.map (·.platform_Terbanyak_Digunakan)).dedup).insertionSort (· ≤ ·) :=
    List.map_id _
  rw [h2]
  exact List.perm_insertionSort _ _

theorem mem_platformAgg (df : List Row) (e : PlatformRow) :
    e ∈ platformAgg df ↔
      e.platform_Terbanyak_Digunakan ∈ (df.map (·.platform_Terbanyak_Digunakan)).dedup ∧
      e = PlatformRow.mk e.platform_Terbanyak_Digunakan
        (roundTo 1 (listMean (platformGroup df e.platform_Terbanyak_Digunakan)))
        (platformGroup df e.platform_Terbanyak_Digunakan).length := by
  rw [platformAgg, List.mem_insertionSort, List.mem_map]
  constructor
  · rintro ⟨p, hp, rfl⟩
    rw [List.mem_insertionSort] at hp
    exact ⟨hp, rfl⟩
  · rintro ⟨hp, he⟩
    exact ⟨e.platform_Terbanyak_Digunakan, (List.mem_insertionSort _).mpr hp, he.symm⟩

/-- C5: on a table whose platform column takes values among the five
generated platforms, each of the five being present, the platform ranking
has exactly 5 rows, the platforms of the rows are pairwise distinct, every
one of the five platforms appears, and the rows are sorted descending by the
mean-usage column. -/
theorem claim_C5 (df : List Row)
    (hdom : ∀ r ∈ df, r.platform_Terbanyak_Digunakan ∈ fivePlatforms)
    (hall : ∀ p ∈ fivePlatforms, ∃ r ∈ df, r.platform_Terbanyak_Digunakan = p) :
    (platformAgg df).length = 5 ∧
    ((platformAgg df).map PlatformRow.platform_Terbanyak_Digunakan).Nodup ∧
    (∀ p ∈ fivePlatforms, ∃ e ∈ platformAgg df,
        e.platform_Terbanyak_Digunakan = p) ∧
    List.Sorted rankGe (platformAgg df) := by
  have hkeys : ((df.map (·.platform_Terbanyak_Digunakan)).dedup).Perm fivePlatforms := by
    rw [List.perm_ext_iff_of_nodup (List.nodup_dedup _) (by decide)]
    intro p
    rw [List.mem_dedup, List.mem_map]
    constructor
    · rintro ⟨r, hr, rfl⟩
      exact hdom r hr
    · intro hp
      rcases hall p hp with ⟨r, hr, hrp⟩
      exact ⟨r, hr, hrp⟩
  refine ⟨?_, ?_, ?_, ?_⟩
  · have := (platformAgg_map_platform df).trans hkeys
    have hlen := this.length_eq
    rw [List.length_map] at hlen
    exact hlen
  · exact ((platformAgg_map_platform df).nodup_iff).mpr (List.nodup_dedup _)
  · intro p hp
    have hmem : p ∈ (df.map (·.platform_Terbanyak_Digunakan)).dedup :=
      hkeys.mem_iff.mpr hp
    refine ⟨PlatformRow.mk p (roundTo 1 (listMean (platformGroup df p)))
      (platformGroup df p).length, ?_, rfl⟩
    exact (mem_platformAgg df _).mpr ⟨hmem, rfl⟩
  · exact List.sorted_insertionSort rankGe _

/-- A five-row table carrying each generated platform once. -/
def dfFive : List Row :=
  [{ sampleRow with platform_Terbanyak_Digunakan := "Instagram" },
   { sampleRow with platform_Terbanyak_Digunakan := "TikTok" },
   { sampleRow with platform_Terbanyak_Digunakan := "X (Twitter)" },
   { sampleRow with platform_Terbanyak_Digunakan := "YouTube" },
   { sampleRow with platform_Terbanyak_Digunakan := "Facebook" }]

theorem claim_C5_witness :
    ((∀ r ∈ dfFive, r.platform_Terbanyak_Digunakan ∈ fivePlatforms) ∧
     (∀ p ∈ fivePlatforms, ∃ r ∈ dfFive, r.platform_Terbanyak_Digunakan = p)) ∧
    (platformAgg dfFive).length = 5 := by
  have h1 : ∀ r ∈ dfFive, r.platform_Terbanyak_Digunakan ∈ fivePlatforms := by
    decide
  have h2 : ∀ p ∈ fivePlatforms, ∃ r ∈ dfFive,
      r.platform_Terbanyak_Digunakan = p := by decide
  exact ⟨⟨h1, h2⟩, (claim_C5 dfFive h1 h2).1⟩

/-- A two-row table whose two platform groups have different exact mean usage
(5.01 and 5.04) but the same mean once rounded to 1 decimal (5.0). -/
def dfTie : List Row :=
  [{ jenis_Kelamin := "Laki-laki"
     tingkat_Pendidikan := "Pelajar SMA"
     durasi_Penggunaan_Harian := 501/100
     platform_Terbanyak_Digunakan := "A"
     durasi_Tidur := 7
     skor_Kesehatan_Mental := 70 },
   { jenis_Kelamin := "Laki-laki"
     tingkat_Pendidikan := "Pelajar SMA"
     durasi_Penggunaan_Harian := 504/100
     platform_Terbanyak_Digunakan := "B"
     durasi_Tidur := 7
     skor_Kesehatan_Mental := 70 }]

/-- C9: the platform ranking rounds the per-platform mean to 1 decimal before
sorting, so each displayed mean is the 1-decimal rounding of the group mean
and the descending order is taken on the rounded values; on `dfTie` the two
rounded means tie, the output keeps the platform whose exact mean is smaller
first, so the order is not determined by the exact means. -/
theorem claim_C9 :
    (∀ df : List Row, List.Sorted rankGe (platformAgg df) ∧
        ∀ e ∈ platformAgg df,
          e.rata_Rata_Durasi =
            roundTo 1 (listMean (platformGroup df e.platform_Terbanyak_Digunakan)) ∧
          e.jumlah_Pengguna =
            (platformGroup df e.platform_Terbanyak_Digunakan).length) ∧
    platformAgg dfTie =
      [PlatformRow.mk "A" 5 1, PlatformRow.mk "B" 5 1] ∧
    listMean (platformGroup dfTie "A") < listMean (platformGroup dfTie "B") := by
  refine ⟨?_, ?_, ?_⟩
  · intro df
    refine ⟨List.sorted_insertionSort rankGe _, ?_⟩
    intro e he
    rcases (mem_platformAgg df e).mp he with ⟨-, hform⟩
    constructor
    · exact congrArg PlatformRow.rata_Rata_Durasi hform
    · exact congrArg PlatformRow.jumlah_Pengguna hform
  · have hA : platformGroup dfTie "A" = [501/100] := rfl
    have hB : platformGroup dfTie "B" = [504/100] := rfl
    have hAB : ("A" : String) ≤ "B" := by
      simp only [String.le_iff_toList_le]
      decide
    have hmapd : (dfTie.map (·.platform_Terbanyak_Digunakan)).dedup = ["A", "B"] := by
      decide
    have hkeys : ((dfTie.map (·.platform_Terbanyak_Digunakan)).dedup).insertionSort
        (· ≤ ·) = ["A", "B"] := by
      rw [hmapd]
      simp only [List.insertionSort, List.orderedInsert]
      rw [if_pos hAB]
    have hvalA : roundTo 1 (listMean [(501 : ℚ)/100]) = 5 := by
      norm_num [listMean, roundTo, roundHalfEven]
    have hvalB : roundTo 1 (listMean [(504 : ℚ)/100]) = 5 := by
      norm_num [listMean, roundTo, roundHalfEven]
    rw [platformAgg, hkeys]
    simp only [List.map_cons, List.map_nil, hA, hB,
      List.length_cons, List.length_nil, Nat.zero_add]
    rw [hvalA, hvalB]
    simp only [List.insertionSort, List.orderedInsert]
    have hr : rankGe (PlatformRow.mk "A" 5 1) (PlatformRow.mk "B" 5 1) :=
      le_refl (5 : ℚ)
    rw [if_pos hr]
  · have hA : platformGroup dfTie "A" = [501/100] := rfl
    have hB : platformGroup dfTie "B" = [504/100] := rfl
    rw [hA, hB]
    norm_num [listMean]

end Dashboard

namespace Dashboard

/-- A column vector centered at its mean, the building block of the Pearson
correlation computed by `df[rel_cols].corr()` (line 150). -/
def centered (x : List ℚ) : List ℚ := x.map (fun v => v - listMean x)

/-- Cross sum `Σ (xᵢ - x̄)(yᵢ - ȳ)`, the numerator of a Pearson entry. -/
def sCross (x y : List ℚ) : ℚ :=
  (((centered x).zip (centered y)).map (fun p => p.1 * p.2)).sum

/-- Self sum `Σ (xᵢ - x̄)²`; zero exactly when the column has zero variance
(fewer than 2 rows included). -/
def sSelf (x : List ℚ) : ℚ := ((centered x).map (fun v => v * v)).sum

/-- One Pearson entry of `corr()`:
`Σ(x-x̄)(y-ȳ) / √(Σ(x-x̄)² · Σ(y-ȳ)²)`. When a variance term vanishes the
float computation is 0/0, i.e. NaN, modelled as `none`. -/
noncomputable def corrEntry (x y : List ℚ) : Option ℝ :=
  if sSelf x * sSelf y = 0 then none
  else some ((sCross x y : ℝ) / Real.sqrt ((sSelf x : ℝ) * (sSelf y : ℝ)))

/-- The three numeric columns `rel_cols` of line 149. -/
def relCol (df : List Row) : Fin 3 → List ℚ
  | ⟨0, _⟩ => df.map (·.durasi_Penggunaan_Harian)
  | ⟨1, _⟩ => df.map (·.durasi_Tidur)
  | ⟨2, _⟩ => df.map (fun r => (r.skor_Kesehatan_Mental : ℚ))

/-- Line 150: the 3×3 Pearson correlation matrix over `rel_cols`. -/
noncomputable def corrMatrix (df : List Row) (i j : Fin 3) : Option ℝ :=
  corrEntry (relCol df i) (relCol df j)

theorem zip_self_map_mul_sum (l : List ℚ) :
    ((l.zip l).map (fun p => p.1 * p.2)).sum = (l.map (fun v => v * v)).sum := by
  induction l with
  | nil => rfl
  | cons a t ih => simp [List.zip_cons_cons, ih]

theorem sCross_self (x : List ℚ) : sCross x x = sSelf x :=
  zip_self_map_mul_sum (centered x)

theorem sSelf_nonneg (x : List ℚ) : 0 ≤ sSelf x := by
  refine List.sum_nonneg ?_
  intro v hv
  rcases List.mem_map.mp hv with ⟨w, -, rfl⟩
  exact mul_self_nonneg w

theorem sCross_comm (x y : List ℚ) : sCross x y = sCross y x := by
  unfold sCross
  rw [← List.zip_swap (centered x) (centered y), List.map_map]
  congr 1
  refine List.map_congr_left ?_
  intro a _
  exact mul_comm a.1 a.2

theorem corrEntry_comm (x y : List ℚ) : corrEntry x y = corrEntry y x := by
  unfold corrEntry
  rw [sCross_comm x y, mul_comm (sSelf x) (sSelf y),
    mul_comm ((sSelf x : ℝ)) ((sSelf y : ℝ))]

theorem corrEntry_self (x : List ℚ) (h : sSelf x ≠ 0) :
    corrEntry x x = some 1 := by
  unfold corrEntry
  rw [if_neg (mul_ne_zero h h)]
  have hpos : (0 : ℝ) ≤ (sSelf x : ℝ) := by exact_mod_cast sSelf_nonneg x
  rw [sCross_self, Real.sqrt_mul_self hpos]
  rw [div_self (by exact_mod_cast h)]

theorem corrEntry_none_left {x y : List ℚ} (h : sSelf x = 0) :
    corrEntry x y = none := by
  unfold corrEntry
  rw [if_pos (by rw [h, zero_mul])]

theorem corrEntry_none_right {x y : List ℚ} (h : sSelf y = 0) :
    corrEntry x y = none := by
  unfold corrEntry
  rw [if_pos (by rw [h, mul_zero])]

theorem sSelf_of_short (df : List Row) (h : df.length < 2) (i : Fin 3) :
    sSelf (relCol df i) = 0 := by
  rcases df with - | ⟨r, - | ⟨s, t⟩⟩
  · fin_cases i <;> rfl
  · fin_cases i <;> simp [relCol, sSelf, centered, listMean]
  · exfalso
    simp only [List.length_cons] at h
    omega

/-- C6: for a table with at least 2 rows and nonzero variance in each of the
three numeric columns, the correlation matrix is symmetric and carries 1.0
on the diagonal. -/
theorem claim_C6 (df : List Row) (hrows : 2 ≤ df.length)
    (hvar : ∀ i : Fin 3, sSelf (relCol df i) ≠ 0) :
    (∀ i j : Fin 3, corrMatrix df i j = corrMatrix df j i) ∧
    (∀ i : Fin 3, corrMatrix df i i = some 1) :=
  ⟨fun i j => corrEntry_comm (relCol df i) (relCol df j),
   fun i => corrEntry_self (relCol df i) (hvar i)⟩

/-- A two-row table with nonzero variance in all three numeric columns. -/
def dfTwo : List Row :=
  [{ jenis_Kelamin := "Laki-laki"
     tingkat_Pendidikan := "Pelajar SMA"
     durasi_Penggunaan_Harian := 1
     platform_Terbanyak_Digunakan := "Instagram"
     durasi_Tidur := 3
     skor_Kesehatan_Mental := 10 },
   { jenis_Kelamin := "Perempuan"
     tingkat_Pendidikan := "Mahasiswa S1"
     durasi_Penggunaan_Harian := 2
     platform_Terbanyak_Digunakan := "TikTok"
     durasi_Tidur := 4
     skor_Kesehatan_Mental := 20 }]

theorem claim_C6_witness :
    (2 ≤ dfTwo.length ∧ ∀ i : Fin 3, sSelf (relCol dfTwo i) ≠ 0) ∧
    corrMatrix dfTwo 0 1 = corrMatrix dfTwo 1 0 ∧
    corrMatrix dfTwo 0 0 = some 1 := by
  have h1 : 2 ≤ dfTwo.length := by decide
  have h2 : ∀ i : Fin 3, sSelf (relCol dfTwo i) ≠ 0 := by
    intro i
    fin_cases i <;> norm_num [dfTwo, relCol, sSelf, centered, listMean]
  exact ⟨⟨h1, h2⟩, (claim_C6 dfTwo h1 h2).1 0 1, (claim_C6 dfTwo h1 h2).2 0⟩

/-- C7: with fewer than 2 rows, or zero variance in a column, the affected
correlation entries are NaN (`none`) instead of an error; and every
aggregation stage accepts the empty table, yielding its well-defined
degenerate output. -/
theorem claim_C7 :
    (∀ df : List Row, df.length < 2 → ∀ i j : Fin 3, corrMatrix df i j = none) ∧
    (∀ df : List Row, ∀ i : Fin 3, sSelf (relCol df i) = 0 →
        ∀ j : Fin 3, corrMatrix df i j = none ∧ corrMatrix df j i = none) ∧
    (demografiAgg [] = [] ∧ platformAgg [] = [] ∧
      summaryMetrics [] =
        { total_responden := 0, avg_usage := none, avg_sleep := none,
          avg_health := none } ∧
      ∀ i j : Fin 3, corrMatrix [] i j = none) := by
  refine ⟨?_, ?_, rfl, rfl, rfl, ?_⟩
  · intro df h i j
    exact corrEntry_none_left (sSelf_of_short df h i)
  · intro df i h j
    exact ⟨corrEntry_none_left h, corrEntry_none_right h⟩
  · intro i j
    exact corrEntry_none_left (sSelf_of_short [] (by decide) i)

/-- A two-row table with zero variance in the usage column. -/
def dfConst : List Row := [sampleRow, { sampleRow with jenis_Kelamin := "Perempuan" }]

theorem claim_C7_witness :
    ([sampleRow].length < 2 ∧ corrMatrix [sampleRow] 0 1 = none) ∧
    (sSelf (relCol dfConst 0) = 0 ∧ corrMatrix dfConst 0 2 = none) := by
  have h1 : [sampleRow].length < 2 := by decide
  have h2 : sSelf (relCol dfConst 0) = 0 := by
    norm_num [dfConst, sampleRow, relCol, sSelf, centered, listMean]
  exact ⟨⟨h1, claim_C7.1 [sampleRow] h1 0 1⟩,
    ⟨h2, (claim_C7.2.1 dfConst 0 h2 2).1⟩⟩

end Dashboard
